import Mathlib

/-!
Verification development for the Skin-disease-diagnosis repository.

The frontend TypeScript (image upload validation, patient-metadata form,
submission handler, API client with retry) is embedded directly from the
source under `src/frontend` and `src/unnamed/part_000`. The backend
inference and triage code (`backend/model/model_loader.py`) is not part of
the repository snapshot — only its READMEs are — so those components are
modelled from the specification, as marked on each definition.
-/

namespace SkinDiagnosis

/-- The four triage urgency levels. -/
inductive TriageLevel where
  | LOW
  | MEDIUM
  | HIGH
  | CRITICAL
deriving DecidableEq, Repr

/-- Numeric severity rank: LOW < MEDIUM < HIGH < CRITICAL. -/
def severityRank : TriageLevel → Nat
  | .LOW => 0
  | .MEDIUM => 1
  | .HIGH => 2
  | .CRITICAL => 3

/-- Probability vector over the four disease classes, in the fixed canonical
order Acne, Cherry Angioma, Melanoma, Psoriasis. Probabilities are embedded
as rationals. -/
structure ProbabilityVector where
  acne : ℚ
  cherry : ℚ
  melanoma : ℚ
  psoriasis : ℚ
deriving DecidableEq, Repr

/-- The fixed, ordered class-name list. -/
def CLASS_NAMES : List String := ["Acne", "Cherry Angioma", "Melanoma", "Psoriasis"]

/-- Largest class probability of a vector. -/
def maxProb (p : ProbabilityVector) : ℚ :=
  max p.acne (max p.cherry (max p.melanoma p.psoriasis))

/-- Modelled from the spec: the TriageClassifier rule chain of
`backend/model/model_loader.py`, which is absent from the snapshot. Rules in
fixed first-match order: melanoma ≥ 0.50 → CRITICAL; else melanoma ≥ 0.30 →
HIGH; else max ≥ 0.70 → MEDIUM; else LOW. -/
def classify (p : ProbabilityVector) : TriageLevel :=
  if p.melanoma ≥ 1/2 then .CRITICAL
  else if p.melanoma ≥ 3/10 then .HIGH
  else if maxProb p ≥ 7/10 then .MEDIUM
  else .LOW

/-- Triage assessment record: level, templated message, escalation flag and
the melanoma probability it was derived from. -/
structure TriageAssessment where
  level : TriageLevel
  message : String
  requires_immediate_attention : Bool
  melanoma_probability : ℚ
deriving DecidableEq, Repr

/-- Modelled from the spec: the per-level message template embedding the
numeric melanoma probability as a percentage. -/
def triageMessage (lv : TriageLevel) (m : ℚ) : String :=
  let pct := toString (m * 100) ++ " percent"
  match lv with
  | .CRITICAL => "URGENT: melanoma probability " ++ pct ++ " - immediate review required"
  | .HIGH => "High priority: melanoma probability " ++ pct
  | .MEDIUM => "Moderate priority: melanoma probability " ++ pct
  | .LOW => "Low priority: melanoma probability " ++ pct

/-- Modelled from the spec: full triage derivation, a pure function of the
probability vector. -/
def triageAssess (p : ProbabilityVector) : TriageAssessment :=
  let lv := classify p
  ⟨lv, triageMessage lv p.melanoma,
    decide (lv = .CRITICAL ∨ lv = .HIGH), p.melanoma⟩

/-- Synthetic distribution holding the relative proportions `a`, `b`, `c`
of the non-melanoma classes (Acne, Cherry Angioma, Psoriasis) fixed while
the melanoma probability is `m`: the non-melanoma mass `1 - m` is split in
those proportions. -/
def mixVec (a b c m : ℚ) : ProbabilityVector :=
  ⟨a * (1 - m), b * (1 - m), m, c * (1 - m)⟩

/-! ### Frontend: image-quality validation (`ImageUpload.tsx`, `validateImageQuality`) -/

/-- Embedded from `validateImageQuality` in
`src/frontend/components/ImageUpload.tsx`: given the decoded image's pixel
dimensions, reject (reject-with-message = `Except.error`) or accept exactly
as the two `if` statements in the source do, in source order. -/
def validateImageQuality (width height : Nat) : Except String Bool :=
  if width < 100 || height < 100 then
    Except.error "Image resolution too low. Minimum required: 100x100 pixels."
  else if width < 50 || height < 50 then
    Except.error "Image appears to be corrupted or invalid."
  else
    Except.ok true

/-- A JavaScript `File` as the upload handler consumes it: MIME type, byte
size, and the decoded pixel dimensions that `validateImageQuality` reads. -/
structure JsFile where
  type : String
  size : Nat
  width : Nat
  height : Nat
deriving DecidableEq, Repr

/-- Embedded from `handleFile` in `src/frontend/components/ImageUpload.tsx`:
returns `some file` exactly when the handler reaches `onImageSelect(file)`,
and `none` on each early-`return` rejection path (non-image MIME type,
size over 10MB, failed quality validation). -/
def handleFile (file : JsFile) : Option JsFile :=
  if ¬ file.type.startsWith "image/" then none
  else if file.size > 10 * 1024 * 1024 then none
  else match validateImageQuality file.width file.height with
    | Except.error _ => none
    | Except.ok _ => some file

/-! ### Frontend: patient metadata (`PatientMetadata.tsx`, `types.ts`, `page.tsx`) -/

/-- The fixed lesion-location enumeration from
`src/frontend/lib/types.ts` (`LESION_LOCATIONS`). -/
def LESION_LOCATIONS : List String :=
  ["Face", "Chest", "Back", "Arms", "Legs", "Hands", "Feet", "Scalp", "Neck", "Other"]

/-- Value of a maximal leading decimal-digit run, JavaScript `parseInt`
style: consume digits while they last, accumulating base-10. -/
def digitRunVal (acc : Nat) : List Char → Nat
  | [] => acc
  | c :: cs => if c.isDigit then digitRunVal (acc * 10 + (c.toNat - 48)) cs else acc

/-- Whether a character list starts with a decimal digit. -/
def startsWithDigit : List Char → Bool
  | [] => false
  | c :: _ => c.isDigit

/-- JavaScript `parseInt(s)` (radix 10): skip leading whitespace, take an
optional sign, then the maximal digit run; `none` models `NaN` (no digits). -/
def jsParseInt (s : String) : Option Int :=
  let cs := s.data.dropWhile Char.isWhitespace
  match cs with
  | '-' :: rest =>
      if startsWithDigit rest then some (-(digitRunVal 0 rest : Int)) else none
  | '+' :: rest =>
      if startsWithDigit rest then some ((digitRunVal 0 rest : Int)) else none
  | rest =>
      if startsWithDigit rest then some ((digitRunVal 0 rest : Int)) else none

/-- Embedded from `handleAgeChange` in
`src/frontend/components/PatientMetadata.tsx`: `current` is the age state
before the event, the result the age state after it. Empty input stores
`none`; a parsed integer in [0,150] is stored; anything else leaves the
state unchanged (no `onAgeChange` call). -/
def handleAgeChange (value : String) (current : Option Int) : Option Int :=
  if value = "" then none
  else match jsParseInt value with
    | some n => if 0 ≤ n ∧ n ≤ 150 then some n else current
    | none => current

/-- Outcome of the submission handler `handlePredict` in
`src/frontend/app/page.tsx`: either an early-return error message, or a
request submitted to `predictDisease` with the given metadata. -/
inductive PredictOutcome where
  | errored (msg : String)
  | submitted (file : JsFile) (age : Option Int) (lesionLocation : String)
deriving DecidableEq, Repr

/-- Embedded from `handlePredict` in `src/frontend/app/page.tsx`: no image →
error; falsy (empty) lesion location → error; otherwise the request is
submitted with the selected image, the age, and the location. -/
def handlePredict (selectedImage : Option JsFile) (age : Option Int)
    (lesionLocation : String) : PredictOutcome :=
  match selectedImage with
  | none => .errored "Please upload an image first"
  | some file =>
      if lesionLocation = "" then .errored "Please select a lesion location"
      else .submitted file age lesionLocation

/-! ### Frontend: API client retry logic (`src/unnamed/part_000`, `predictDisease`) -/

/-- What one `fetch` attempt came back with: a 2xx response, a non-ok HTTP
response with its optional JSON `detail` field, or a thrown error (network
failure, or the timeout error minted by `fetchWithTimeout`). -/
inductive FetchOutcome where
  | success
  | httpError (status : Nat) (detail : Option String)
  | thrown (msg : String)
deriving DecidableEq, Repr

/-- `MAX_RETRIES` constant from the API client. -/
def MAX_RETRIES : Nat := 2

/-- Embedded from the `!response.ok` branch of `predictDisease`: the error
message minted for each HTTP status, with `error.detail` falling back to the
hard-coded text exactly as `error.detail ||` does. -/
def httpErrorMessage (status : Nat) (detail : Option String) : String :=
  if status = 413 then "File too large. Maximum size is 10MB."
  else if status = 400 then
    detail.getD "Invalid image file. Please upload a clear JPEG or PNG image."
  else if status = 429 then "Too many requests. Please wait a moment and try again."
  else detail.getD "Prediction failed. Please try again."

/-- Whether the second character list is an initial segment of the first. -/
def leadsWith : List Char → List Char → Bool
  | _, [] => true
  | [], _ :: _ => false
  | c :: cs, p :: ps => c == p && leadsWith cs ps

/-- Whether the second character list occurs contiguously in the first. -/
def hasSub : List Char → List Char → Bool
  | [], pat => pat.isEmpty
  | c :: rest, pat => leadsWith (c :: rest) pat || hasSub rest pat

/-- JavaScript `a.includes(b)` for strings: `b` occurs as a substring. -/
def strIncludes (s pat : String) : Bool :=
  hasSub s.data pat.data

/-- The retry trigger of `predictDisease`: the caught error's message
contains "network", "fetch" or "timeout". -/
def containsTrigger (msg : String) : Bool :=
  strIncludes msg "network" || strIncludes msg "fetch" || strIncludes msg "timeout"

/-- Error message of attempt `i` against the given oracle of attempt
outcomes, or `Except.ok` on success. -/
def attemptResult (oracle : Nat → FetchOutcome) (i : Nat) : Except String Unit :=
  match oracle i with
  | .success => Except.ok ()
  | .httpError st d => Except.error (httpErrorMessage st d)
  | .thrown m => Except.error m

/-- Embedded from `predictDisease` in `src/unnamed/part_000`: `retryCount`
is the source's parameter and `remaining = MAX_RETRIES - retryCount` the
retries still allowed (the source retries iff `retryCount < MAX_RETRIES`
and the message matches the trigger). Returns the final result together
with the total number of requests issued. -/
def predictRun (oracle : Nat → FetchOutcome) : Nat → Nat → Except String Unit × Nat
  | retryCount, remaining =>
    match attemptResult oracle retryCount with
    | Except.ok _ => (Except.ok (), 1)
    | Except.error msg =>
      match remaining with
      | 0 => (Except.error msg, 1)
      | r + 1 =>
        if containsTrigger msg then
          let rest := predictRun oracle (retryCount + 1) r
          (rest.1, rest.2 + 1)
        else (Except.error msg, 1)

/-- The API client's entry point: `predictDisease(file, age, loc)` starts
with `retryCount = 0`, so `MAX_RETRIES` retries remain. -/
def predictDisease (oracle : Nat → FetchOutcome) : Except String Unit × Nat :=
  predictRun oracle 0 MAX_RETRIES

/-! ### Backend (modelled from the spec): placeholder inference and pipeline -/

/-- A preprocessed tensor, abstracted to its byte content: the placeholder
backend only ever reads the bytes. -/
abbrev Tensor : Type := List Nat

/-- Modelled from the spec: the stable content hash of the tensor bytes used
by the PlaceholderModel (`backend/model/model_loader.py` is absent from the
snapshot); a deterministic fold over the bytes. -/
def tensorHash (t : Tensor) : Nat :=
  t.foldl (fun h b => (h * 31 + b) % 4294967296) 5381

/-- Modelled from the spec: one step of the fixed-seed pseudo-random
generator derived from the content hash (a linear congruential step). -/
def lcgNext (s : Nat) : Nat := (1103515245 * s + 12345) % 2147483648

/-- A strictly positive weight drawn from a generator state. -/
def drawWeight (s : Nat) : Nat := s % 1000 + 1

/-- Modelled from the spec: the PlaceholderModel's
`predict(tensor) -> ProbabilityVector` — seed the generator from the
content hash, draw four weights, and normalize them into a probability
distribution over the fixed class order. -/
def placeholderPredict (t : Tensor) : ProbabilityVector :=
  let s1 := lcgNext (tensorHash t)
  let s2 := lcgNext s1
  let s3 := lcgNext s2
  let s4 := lcgNext s3
  let w1 := drawWeight s1
  let w2 := drawWeight s2
  let w3 := drawWeight s3
  let w4 := drawWeight s4
  let total : ℚ := (w1 : ℚ) + w2 + w3 + w4
  ⟨w1 / total, w2 / total, w3 / total, w4 / total⟩

/-- Modelled from the spec: the inference-plus-triage tail of
`DiagnosisPipeline.run` under the placeholder backend — the probability
vector and the triage assessment derived from it. -/
def pipelineRun (t : Tensor) : ProbabilityVector × TriageAssessment :=
  let p := placeholderPredict t
  (p, triageAssess p)

/-! ### Theorems -/

/-- C1: the triage classification evaluates its rules in fixed first-match
order — melanoma ≥ 0.50 yields CRITICAL; otherwise melanoma ≥ 0.30 yields
HIGH; otherwise max class probability ≥ 0.70 yields MEDIUM; otherwise LOW —
and `requires_immediate_attention` is true iff the level is CRITICAL or
HIGH. -/
theorem triage_first_match_order (p : ProbabilityVector) :
    (classify p = .CRITICAL ↔ 1/2 ≤ p.melanoma) ∧
    (classify p = .HIGH ↔ 3/10 ≤ p.melanoma ∧ p.melanoma < 1/2) ∧
    (classify p = .MEDIUM ↔ p.melanoma < 3/10 ∧ 7/10 ≤ maxProb p) ∧
    (classify p = .LOW ↔ p.melanoma < 3/10 ∧ maxProb p < 7/10) ∧
    ((triageAssess p).requires_immediate_attention = true ↔
      (classify p = .CRITICAL ∨ classify p = .HIGH)) := by
  have hflag : (triageAssess p).requires_immediate_attention = true ↔
      (classify p = .CRITICAL ∨ classify p = .HIGH) := by
    simp [triageAssess]
  refine ⟨?_, ?_, ?_, ?_, hflag⟩ <;>
    · unfold classify
      split_ifs with h1 h2 h3 <;> simp_all [not_le] <;>
        first
          | linarith
          | (intro hx; linarith)

/-- C5: `validateImageQuality` rejects exactly the images with width or
height under 100 pixels, accepts everything at 100×100 or larger; a 99×99
image fails with the resolution error and a 100×100 image proceeds. -/
theorem resolution_validation_boundary (w h : Nat) :
    (validateImageQuality w h = Except.ok true ↔ 100 ≤ w ∧ 100 ≤ h) ∧
    ((w < 100 ∨ h < 100) ↔
      validateImageQuality w h =
        Except.error "Image resolution too low. Minimum required: 100x100 pixels.") ∧
    validateImageQuality 99 99 =
      Except.error "Image resolution too low. Minimum required: 100x100 pixels." ∧
    validateImageQuality 100 100 = Except.ok true := by
  refine ⟨?_, ?_, rfl, rfl⟩ <;>
    · unfold validateImageQuality
      split_ifs with h1 h2 <;> simp_all <;> omega

/-- C6: the "corrupted" branch of `validateImageQuality` is unreachable —
any image under 50×50 is caught by the under-100 resolution check first, so
no input ever produces the distinct corrupted message; a 40×40 image gets
the generic low-resolution message. -/
theorem corrupted_message_unreachable (w h : Nat) :
    validateImageQuality w h ≠
      Except.error "Image appears to be corrupted or invalid." ∧
    validateImageQuality 40 40 =
      Except.error "Image resolution too low. Minimum required: 100x100 pixels." := by
  refine ⟨?_, rfl⟩
  unfold validateImageQuality
  split_ifs with h1 h2 <;> simp_all <;> omega

/-- Normalizing four strictly positive rationals by their total yields four
values in [0,1] that sum to exactly 1. -/
theorem norm_quad_simplex (a b c d : ℚ) (ha : 0 < a) (hb : 0 < b)
    (hc : 0 < c) (hd : 0 < d) :
    (0 ≤ a / (a + b + c + d) ∧ a / (a + b + c + d) ≤ 1) ∧
    (0 ≤ b / (a + b + c + d) ∧ b / (a + b + c + d) ≤ 1) ∧
    (0 ≤ c / (a + b + c + d) ∧ c / (a + b + c + d) ≤ 1) ∧
    (0 ≤ d / (a + b + c + d) ∧ d / (a + b + c + d) ≤ 1) ∧
    a / (a + b + c + d) + b / (a + b + c + d) + c / (a + b + c + d) +
      d / (a + b + c + d) = 1 := by
  have hs : 0 < a + b + c + d := by linarith
  have hne : a + b + c + d ≠ 0 := ne_of_gt hs
  refine ⟨⟨by positivity, ?_⟩, ⟨by positivity, ?_⟩, ⟨by positivity, ?_⟩,
    ⟨by positivity, ?_⟩, ?_⟩
  · rw [div_le_one hs]; linarith
  · rw [div_le_one hs]; linarith
  · rw [div_le_one hs]; linarith
  · rw [div_le_one hs]; linarith
  · rw [div_add_div_same, div_add_div_same, div_add_div_same, div_self hne]

/-- C2: the pipeline is deterministic — on bit-identical tensors the
placeholder backend yields bit-identical probability distributions, and two
pipeline runs yield bit-identical probability vectors and triage
assessments. -/
theorem pipeline_deterministic (t₁ t₂ : Tensor) (h : t₁ = t₂) :
    placeholderPredict t₁ = placeholderPredict t₂ ∧
    pipelineRun t₁ = pipelineRun t₂ := by
  subst h
  exact ⟨rfl, rfl⟩

/-- C2 witness: determinism instantiated at a concrete tensor. -/
theorem pipeline_deterministic_witness :
    placeholderPredict [0, 1, 2] = placeholderPredict [0, 1, 2] ∧
    pipelineRun [0, 1, 2] = pipelineRun [0, 1, 2] :=
  pipeline_deterministic [0, 1, 2] [0, 1, 2] rfl

/-- C3: every probability vector the placeholder backend outputs satisfies
the class-probability simplex invariant — each class value lies in [0,1] and
the sum lies within 1e-6 of 1 (here: sums to exactly 1) — and the class set
is the fixed, stably ordered list Acne, Cherry Angioma, Melanoma,
Psoriasis. -/
theorem placeholder_simplex_invariant (t : Tensor) :
    (0 ≤ (placeholderPredict t).acne ∧ (placeholderPredict t).acne ≤ 1) ∧
    (0 ≤ (placeholderPredict t).cherry ∧ (placeholderPredict t).cherry ≤ 1) ∧
    (0 ≤ (placeholderPredict t).melanoma ∧ (placeholderPredict t).melanoma ≤ 1) ∧
    (0 ≤ (placeholderPredict t).psoriasis ∧ (placeholderPredict t).psoriasis ≤ 1) ∧
    (1 - 1/1000000 ≤ (placeholderPredict t).acne + (placeholderPredict t).cherry +
        (placeholderPredict t).melanoma + (placeholderPredict t).psoriasis ∧
      (placeholderPredict t).acne + (placeholderPredict t).cherry +
        (placeholderPredict t).melanoma + (placeholderPredict t).psoriasis ≤
        1 + 1/1000000) ∧
    CLASS_NAMES = ["Acne", "Cherry Angioma", "Melanoma", "Psoriasis"] ∧
    CLASS_NAMES.length = 4 := by
  have hpos : ∀ s : Nat, (0 : ℚ) < (drawWeight s : ℚ) := fun s => by
    unfold drawWeight
    exact_mod_cast Nat.succ_pos _
  obtain ⟨h1, h2, h3, h4, hsum⟩ :=
    norm_quad_simplex
      ((drawWeight (lcgNext (tensorHash t)) : ℚ))
      ((drawWeight (lcgNext (lcgNext (tensorHash t))) : ℚ))
      ((drawWeight (lcgNext (lcgNext (lcgNext (tensorHash t)))) : ℚ))
      ((drawWeight (lcgNext (lcgNext (lcgNext (lcgNext (tensorHash t))))) : ℚ))
      (hpos _) (hpos _) (hpos _) (hpos _)
  have hsum' : (placeholderPredict t).acne + (placeholderPredict t).cherry +
      (placeholderPredict t).melanoma + (placeholderPredict t).psoriasis = 1 := hsum
  refine ⟨h1, h2, h3, h4, ?_, rfl, rfl⟩
  rw [hsum']
  norm_num

/-- C4 counterexample: with the non-melanoma proportions fixed at
(Acne 0.9, Cherry Angioma 0.1, Psoriasis 0), raising the melanoma
probability from 0.22 to 0.25 drops the triage level from MEDIUM to LOW:
severity is not monotone in the melanoma probability. -/
theorem triage_monotonicity_fails_below_high :
    (11/50 : ℚ) < 1/4 ∧
    classify (mixVec (9/10) (1/10) 0 (11/50)) = .MEDIUM ∧
    classify (mixVec (9/10) (1/10) 0 (1/4)) = .LOW ∧
    severityRank (classify (mixVec (9/10) (1/10) 0 (1/4))) <
      severityRank (classify (mixVec (9/10) (1/10) 0 (11/50))) := by
  have hmed : classify (mixVec (9/10) (1/10) 0 (11/50)) = .MEDIUM := by
    norm_num [classify, maxProb, mixVec]
  have hlow : classify (mixVec (9/10) (1/10) 0 (1/4)) = .LOW := by
    norm_num [classify, maxProb, mixVec]
  refine ⟨by norm_num, hmed, hlow, ?_⟩
  rw [hmed, hlow]
  norm_num [severityRank]

/-- C4 amended: the triage level is monotone in the melanoma probability
once the larger probability reaches the HIGH threshold 0.30 — for fixed
non-melanoma proportions, m₁ ≤ m₂ with 0.30 ≤ m₂ never gives m₁ a strictly
higher severity level. -/
theorem triage_monotone_from_high_threshold (a b c m₁ m₂ : ℚ)
    (h12 : m₁ ≤ m₂) (hm : 3/10 ≤ m₂) :
    severityRank (classify (mixVec a b c m₁)) ≤
      severityRank (classify (mixVec a b c m₂)) := by
  have hmel1 : (mixVec a b c m₁).melanoma = m₁ := rfl
  have hmel2 : (mixVec a b c m₂).melanoma = m₂ := rfl
  by_cases h2 : (1/2 : ℚ) ≤ m₂
  · have hcrit : classify (mixVec a b c m₂) = .CRITICAL := by
      unfold classify
      rw [hmel2]
      split_ifs with hh <;> simp_all
    rw [hcrit]
    cases classify (mixVec a b c m₁) <;> simp [severityRank]
  · have hhigh : classify (mixVec a b c m₂) = .HIGH := by
      unfold classify
      rw [hmel2]
      split_ifs with hh1 hh2 <;> simp_all <;> linarith
    have hm1lt : m₁ < 1/2 := lt_of_le_of_lt h12 (lt_of_not_le h2)
    have hnotc : classify (mixVec a b c m₁) ≠ .CRITICAL := by
      unfold classify
      rw [hmel1]
      split_ifs with hh1 hh2 hh3 <;> simp_all <;> linarith
    rw [hhigh]
    cases hcl : classify (mixVec a b c m₁) with
    | CRITICAL => exact absurd hcl hnotc
    | HIGH => simp [severityRank]
    | MEDIUM => simp [severityRank]
    | LOW => simp [severityRank]

/-- C4 amended witness: the monotone region instantiated at the HIGH and
CRITICAL thresholds with concrete proportions. -/
theorem triage_monotone_from_high_threshold_witness :
    severityRank (classify (mixVec (9/10) (1/10) 0 (3/10))) ≤
      severityRank (classify (mixVec (9/10) (1/10) 0 (1/2))) :=
  triage_monotone_from_high_threshold (9/10) (1/10) 0 (3/10) (1/2)
    (by norm_num) (by norm_num)

/-- C7 counterexample: the submission handler rejects a request whose lesion
location is absent (the empty selection) even when an image is selected, so
a prediction request cannot be submitted without a lesion location. -/
theorem lesion_location_required_counterexample :
    handlePredict (some ⟨"image/png", 1000, 224, 224⟩) (some 30) "" =
      PredictOutcome.errored "Please select a lesion location" := rfl

/-- C7 amended: the lesion-location input is required by the submission
handler — `handlePredict` submits exactly when the location is nonempty —
and the UI's location choices form a fixed enumeration of exactly 10
distinct named body regions. -/
theorem lesion_location_enum_and_required (f : JsFile) (a : Option Int)
    (loc : String) :
    LESION_LOCATIONS.length = 10 ∧
    LESION_LOCATIONS.Nodup ∧
    (handlePredict (some f) a loc = .submitted f a loc ↔ loc ≠ "") := by
  refine ⟨rfl, by decide, ?_⟩
  unfold handlePredict
  split_ifs with h <;> simp [h]

/-- C8: the age handler stores `none` for the empty entry, stores the parsed
integer when it lies in [0,150], and leaves the stored age unchanged for
every other entry — neither clamping nor passing the value through. -/
theorem handleAgeChange_validation (value : String) (current : Option Int) :
    (value = "" → handleAgeChange value current = none) ∧
    (value ≠ "" → ∀ n : Int, jsParseInt value = some n →
      ((0 ≤ n ∧ n ≤ 150) → handleAgeChange value current = some n) ∧
      (¬(0 ≤ n ∧ n ≤ 150) → handleAgeChange value current = current)) ∧
    (value ≠ "" → jsParseInt value = none →
      handleAgeChange value current = current) := by
  unfold handleAgeChange
  refine ⟨fun h => by simp [h], fun hne n hp => ?_, fun hne hp => by simp [hne, hp]⟩
  constructor <;> intro hr <;> simp [hne, hp, hr]

/-- C9: every rejection path of `handleFile` — size over 10MB, non-image
MIME type, or failed image-quality validation — returns without invoking
`onImageSelect`, leaving the current selection unchanged. -/
theorem handleFile_rejects_invalid (f : JsFile)
    (h : f.size > 10 * 1024 * 1024 ∨ ¬ f.type.startsWith "image/" ∨
      (∃ msg, validateImageQuality f.width f.height = Except.error msg)) :
    handleFile f = none := by
  unfold handleFile
  by_cases h1 : f.type.startsWith "image/" = true
  · rw [if_neg (not_not_intro h1)]
    by_cases h2 : f.size > 10 * 1024 * 1024
    · rw [if_pos h2]
    · rw [if_neg h2]
      rcases h with h | h | ⟨msg, hv⟩
      · exact absurd h h2
      · exact absurd h1 h
      · rw [hv]
  · rw [if_pos h1]

/-- C9 witness: a 10MB-plus image file is rejected. -/
theorem handleFile_rejects_invalid_witness :
    handleFile ⟨"image/png", 10485761, 224, 224⟩ = none :=
  handleFile_rejects_invalid ⟨"image/png", 10485761, 224, 224⟩
    (Or.inl (by decide))

/-- Requests issued by `predictRun` never exceed the remaining retry budget
plus the present attempt. -/
theorem predictRun_attempts_le (oracle : Nat → FetchOutcome) :
    ∀ remaining retryCount,
      (predictRun oracle retryCount remaining).2 ≤ remaining + 1 := by
  intro remaining
  induction remaining with
  | zero =>
      intro rc
      unfold predictRun
      cases attemptResult oracle rc <;> simp
  | succ r ih =>
      intro rc
      unfold predictRun
      cases attemptResult oracle rc with
      | ok _ => simp
      | error msg =>
          by_cases ht : containsTrigger msg = true <;> simp [ht]
          exact ih (rc + 1)

/-- C10 counterexample: an HTTP 400 response whose server-supplied `detail`
mentions a trigger word is retried — three requests go out, not one — so
HTTP error responses are not all thrown after a single attempt. -/
theorem http400_detail_triggers_retry :
    predictDisease (fun _ => FetchOutcome.httpError 400 (some "network unreachable")) =
      (Except.error "network unreachable", 3) := rfl

/-- C10 amended: `predictDisease` always terminates within
MAX_RETRIES + 1 = 3 total requests, retrying only when the failure message
contains a trigger word; any HTTP error whose minted message has no trigger
word — in particular every 413 and every 429, whose messages are fixed —
is thrown after a single attempt. -/
theorem predictDisease_bounded_retries (oracle : Nat → FetchOutcome) :
    MAX_RETRIES + 1 = 3 ∧
    (predictDisease oracle).2 ≤ MAX_RETRIES + 1 ∧
    (∀ st d, oracle 0 = FetchOutcome.httpError st d →
      containsTrigger (httpErrorMessage st d) = false →
      predictDisease oracle = (Except.error (httpErrorMessage st d), 1)) ∧
    (∀ d, oracle 0 = FetchOutcome.httpError 413 d →
      predictDisease oracle =
        (Except.error "File too large. Maximum size is 10MB.", 1)) ∧
    (∀ d, oracle 0 = FetchOutcome.httpError 429 d →
      predictDisease oracle =
        (Except.error "Too many requests. Please wait a moment and try again.", 1)) := by
  have hfixed : ∀ st d, oracle 0 = FetchOutcome.httpError st d →
      containsTrigger (httpErrorMessage st d) = false →
      predictDisease oracle = (Except.error (httpErrorMessage st d), 1) := by
    intro st d h ht
    unfold predictDisease MAX_RETRIES predictRun
    have ha : attemptResult oracle 0 = Except.error (httpErrorMessage st d) := by
      unfold attemptResult
      rw [h]
    rw [ha]
    simp [ht]
  refine ⟨rfl, predictRun_attempts_le oracle MAX_RETRIES 0, hfixed, ?_, ?_⟩
  · intro d h
    have h413 : httpErrorMessage 413 d = "File too large. Maximum size is 10MB." := rfl
    have := hfixed 413 d h (by rw [h413]; decide)
    rwa [h413] at this
  · intro d h
    have h429 : httpErrorMessage 429 d =
        "Too many requests. Please wait a moment and try again." := rfl
    have := hfixed 429 d h (by rw [h429]; decide)
    rwa [h429] at this

end SkinDiagnosis
